import Mathlib

/- Shallow embedding of the CppFortranInterop repository: src/main.cpp
   (check_decomposition, compute_condition_number, main) and
   src/eigen_interface.{h,cpp} (the wrapper around the Fortran LAPACK
   routine).  Real numbers model IEEE doubles in exact arithmetic; the
   external collaborators (the Fortran dgeev routine, Eigen's EigenSolver
   and JacobiSVD, the random number generator, wall clocks and the
   interactive input stream) are oracles passed in as parameters. -/

/-- Square real matrix of size n (Eigen::MatrixXd with both dimensions n). -/
abbrev Mat (n : ℕ) := Matrix (Fin n) (Fin n) ℝ

/-- Real vector of length n (Eigen::VectorXd). -/
abbrev Vec (n : ℕ) := Fin n → ℝ

/-- Eigen's MatrixXd::norm(): the Frobenius norm, the square root of the sum
of the squared entries. -/
noncomputable def frobNorm {n : ℕ} (A : Mat n) : ℝ :=
  Real.sqrt (∑ i, ∑ j, (A i j) ^ 2)

/-- check_decomposition (src/main.cpp lines 45-55): reconstructs
`A_reconstructed = V * W.asDiagonal() * V.inverse()` and stores
`(A - A_reconstructed).norm() / A.norm()` into relative_error.  Eigen's
unguarded `V.inverse()` is modelled by Mathlib's total matrix inverse; the
function has no failure path in the source. -/
noncomputable def check_decomposition {n : ℕ} (A : Mat n) (W : Vec n) (V : Mat n) : ℝ :=
  frobNorm (A - V * Matrix.diagonal W * V⁻¹) / frobNorm A

/-- compute_condition_number (src/main.cpp lines 68-74): given the vector of
singular values produced by Eigen's JacobiSVD (which Eigen returns sorted in
decreasing order), the function returns
`svd.singularValues()(0) / svd.singularValues().tail(1)(0)`, i.e. the first
entry divided by the last entry. -/
noncomputable def compute_condition_number {n : ℕ} (sv : Fin (n + 1) → ℝ) : ℝ :=
  sv 0 / sv (Fin.last n)

/-- Modelled from the spec (section 4.2): the estimator behaviour the spec
mandates for a singular matrix, namely a dedicated error or sentinel
(`none`) when the smallest singular value is exactly zero, instead of the
unguarded IEEE division.  Used only to compare the source's estimator
against the spec's words. -/
noncomputable def estimate_spec {n : ℕ} (sv : Fin (n + 1) → ℝ) : Option ℝ :=
  if sv (Fin.last n) = 0 then none else some (sv 0 / sv (Fin.last n))

/-- Helper: the Frobenius norm of the 1x1 identity matrix is 1, hence nonzero. -/
lemma frobNorm_one_fin_one : frobNorm (1 : Mat 1) ≠ 0 := by
  have h : frobNorm (1 : Mat 1) = 1 := by
    unfold frobNorm
    rw [show (∑ i : Fin 1, ∑ j : Fin 1, ((1 : Mat 1) i j) ^ 2) = 1 by
      simp [Matrix.one_apply]]
    exact Real.sqrt_one
  rw [h]
  norm_num

/-- C1: for a matrix A with nonzero Frobenius norm and an eigen-system (W, V)
with V invertible (B a two-sided inverse of V), check_decomposition returns
relative_error equal to the Frobenius norm of A minus V * diag(W) * V⁻¹
divided by the Frobenius norm of A. -/
theorem C1_check_decomposition_relative_error {n : ℕ} (A : Mat n) (W : Vec n)
    (V B : Mat n) (hA : frobNorm A ≠ 0) (hVB : V * B = 1) (hBV : B * V = 1) :
    check_decomposition A W V = frobNorm (A - V * Matrix.diagonal W * B) / frobNorm A := by
  rw [check_decomposition, Matrix.inv_eq_left_inv hBV]

/-- Witness for C1 at the concrete input A = 1, W = 1, V = 1, B = 1 (size 1). -/
theorem C1_witness :
    frobNorm (1 : Mat 1) ≠ 0 ∧ (1 : Mat 1) * 1 = 1 ∧
    check_decomposition (1 : Mat 1) (fun _ => 1) 1 =
      frobNorm ((1 : Mat 1) - 1 * Matrix.diagonal (fun _ => 1) * 1) / frobNorm (1 : Mat 1) :=
  ⟨frobNorm_one_fin_one, by rw [mul_one],
    C1_check_decomposition_relative_error 1 (fun _ => 1) 1 1 frobNorm_one_fin_one
      (by rw [mul_one]) (by rw [mul_one])⟩

/-- C5: for a singular-value vector sorted in decreasing order (Eigen's
JacobiSVD guarantee), compute_condition_number returns the largest singular
value divided by the smallest, and the result is at least 1 whenever the
smallest singular value is positive (nonsingular input). -/
theorem C5_condition_number_sigma_ratio {n : ℕ} (sv : Fin (n + 1) → ℝ)
    (hs : Antitone sv) :
    compute_condition_number sv =
      Finset.univ.sup' Finset.univ_nonempty sv /
        Finset.univ.inf' Finset.univ_nonempty sv ∧
    (0 < sv (Fin.last n) → 1 ≤ compute_condition_number sv) := by
  have hsup : Finset.univ.sup' Finset.univ_nonempty sv = sv 0 :=
    le_antisymm (Finset.sup'_le _ _ fun i _ => hs (Fin.zero_le i))
      (Finset.le_sup' sv (Finset.mem_univ 0))
  have hinf : Finset.univ.inf' Finset.univ_nonempty sv = sv (Fin.last n) :=
    le_antisymm (Finset.inf'_le sv (Finset.mem_univ _))
      (Finset.le_inf' _ _ fun i _ => hs (Fin.le_last i))
  constructor
  · rw [hsup, hinf]
    rfl
  · intro hpos
    exact (one_le_div hpos).mpr (hs (Fin.zero_le _))

/-- Helper: the two-entry vector (2, 1) is antitone. -/
lemma antitone_two_one : Antitone (![2, 1] : Fin 2 → ℝ) := by
  intro i j hij
  fin_cases i <;> fin_cases j <;> simp_all

/-- Witness for C5 at the concrete singular values (2, 1). -/
theorem C5_witness :
    Antitone (![2, 1] : Fin 2 → ℝ) ∧
    (compute_condition_number (![2, 1] : Fin 2 → ℝ) =
      Finset.univ.sup' Finset.univ_nonempty (![2, 1] : Fin 2 → ℝ) /
        Finset.univ.inf' Finset.univ_nonempty (![2, 1] : Fin 2 → ℝ) ∧
     (0 < (![2, 1] : Fin 2 → ℝ) (Fin.last 1) →
       1 ≤ compute_condition_number (![2, 1] : Fin 2 → ℝ))) :=
  ⟨antitone_two_one, C5_condition_number_sigma_ratio (![2, 1] : Fin 2 → ℝ) antitone_two_one⟩

/-- C3 counterexample: at the singular values (1, 0) — smallest singular
value exactly zero — the source's estimator does not realise the sentinel or
dedicated-error behaviour the claim asserts: the spec-side estimator returns
the dedicated error `none`, which no plain value returned by
compute_condition_number can equal; the source just divides unguarded. -/
theorem C3_counterexample :
    ¬ (some (compute_condition_number (![1, 0] : Fin 2 → ℝ)) =
        estimate_spec (![1, 0] : Fin 2 → ℝ)) := by
  have h0 : (![1, 0] : Fin 2 → ℝ) (Fin.last 1) = 0 := by
    simp [Fin.last]
  rw [estimate_spec, if_pos h0]
  simp

/-- C3 amended: the source's estimator agrees with the spec-mandated explicit
estimator exactly on inputs whose smallest singular value is nonzero; at a
zero smallest singular value the source performs the division unguarded
(IEEE Inf/NaN in the program) and yields no sentinel and no dedicated error. -/
theorem C3_amended_nonsingular_agreement {n : ℕ} (sv : Fin (n + 1) → ℝ)
    (h : sv (Fin.last n) ≠ 0) :
    estimate_spec sv = some (compute_condition_number sv) := by
  rw [estimate_spec, if_neg h]
  rfl

/-- Witness for the amended C3 at the concrete singular values (2, 1). -/
theorem C3_amended_witness :
    (![2, 1] : Fin 2 → ℝ) (Fin.last 1) ≠ 0 ∧
    estimate_spec (![2, 1] : Fin 2 → ℝ) =
      some (compute_condition_number (![2, 1] : Fin 2 → ℝ)) :=
  ⟨by norm_num [Fin.last], C3_amended_nonsingular_agreement (![2, 1] : Fin 2 → ℝ)
    (by norm_num [Fin.last])⟩

/-- std::stoi as called on argv[1] (src/main.cpp line 99): skip leading
whitespace, read an optional sign and then a nonempty run of decimal digits;
when there is no digit std::stoi throws std::invalid_argument, modelled as
`none` (the out_of_range overflow case is not modelled: the embedding's
integers are unbounded). -/
def stoi (s : String) : Option Int :=
  let cs := s.toList.dropWhile Char.isWhitespace
  let signDigits : Int × List Char :=
    match cs with
    | '+' :: t => (1, t)
    | '-' :: t => (-1, t)
    | t => (1, t)
  let ds := signDigits.2.takeWhile Char.isDigit
  if ds.isEmpty then none
  else some (signDigits.1 * Int.ofNat (ds.foldl (fun a c => 10 * a + (c.toNat - 48)) 0))

/-- Outcome of the argument-handling prologue of main (src/main.cpp lines
92-99).  `usageExit` is the usage message printed on std::cerr followed by
`return 1`; `uncaughtException` is std::stoi throwing with no handler in
scope, so the process terminates abnormally via std::terminate — no usage
message and not exit code 1. -/
inductive ArgOutcome where
  | usageExit : ArgOutcome
  | uncaughtException : ArgOutcome
  | proceed (useLapackInEigen : Bool) : ArgOutcome
  deriving DecidableEq

/-- Argument phase of main: `argc != 2` prints the usage message and returns
1; otherwise `use_lapack_in_eigen = std::stoi(argv[1])` runs with no
try/catch around it (a nonzero integer converts to true).  `args` is argv
without the program name. -/
def argPhase (args : List String) : ArgOutcome :=
  match args with
  | [a] =>
    match stoi a with
    | none => ArgOutcome.uncaughtException
    | some v => ArgOutcome.proceed (v != 0)
  | _ => ArgOutcome.usageExit

/-- C9 counterexample: invoked with the single malformed argument "abc", the
program does not take the usage-error path (message plus exit code 1); the
uncaught std::invalid_argument from std::stoi terminates it abnormally. -/
theorem C9_counterexample : argPhase ["abc"] ≠ ArgOutcome.usageExit := by decide

/-- C9 amended: a wrong argument count (anything but exactly one argument)
prints the usage message to the error stream and exits with code 1, before
any computation; a malformed (non-integer) single argument however is not a
handled usage error: std::stoi throws std::invalid_argument, which is
uncaught, so the process terminates abnormally with no usage message and not
with exit code 1; a well-formed integer argument proceeds with the flag set
to (value != 0). -/
theorem C9_amended_usage_handling :
    (∀ args : List String, args.length ≠ 1 → argPhase args = ArgOutcome.usageExit) ∧
    (∀ a : String, stoi a = none → argPhase [a] = ArgOutcome.uncaughtException) ∧
    (∀ (a : String) (v : Int), stoi a = some v →
      argPhase [a] = ArgOutcome.proceed (v != 0)) := by
  refine ⟨?_, ?_, ?_⟩
  · intro args h
    match args with
    | [] => rfl
    | [a] => exact absurd rfl h
    | a :: b :: t => rfl
  · intro a h
    show (match stoi a with
          | none => ArgOutcome.uncaughtException
          | some v => ArgOutcome.proceed (v != 0)) = ArgOutcome.uncaughtException
    rw [h]
  · intro a v h
    show (match stoi a with
          | none => ArgOutcome.uncaughtException
          | some v => ArgOutcome.proceed (v != 0)) = ArgOutcome.proceed (v != 0)
    rw [h]

/-- Witness for the amended C9 at the concrete argument lists [], ["abc"]
and ["1"]. -/
theorem C9_amended_witness :
    (([] : List String).length ≠ 1 ∧ argPhase [] = ArgOutcome.usageExit) ∧
    (stoi "abc" = none ∧ argPhase ["abc"] = ArgOutcome.uncaughtException) ∧
    (stoi "1" = some 1 ∧ argPhase ["1"] = ArgOutcome.proceed ((1 : Int) != 0)) :=
  ⟨⟨by decide, C9_amended_usage_handling.1 [] (by decide)⟩,
   ⟨by decide, C9_amended_usage_handling.2.1 "abc" (by decide)⟩,
   ⟨by decide, C9_amended_usage_handling.2.2 "1" 1 (by decide)⟩⟩

/-- Body of the interactive regeneration while-loop (src/main.cpp lines
122-134), entered with the operator's answer `c` already read.  While the
answer is 'y' or 'Y' the program draws a fresh matrix with its condition
number (the oracle `draws`, indexed by how many draws happened so far),
breaks as soon as the new condition number is at or below the threshold, and
otherwise reads the next answer.  `resps` is the finite script of remaining
operator answers; `none` means the script was exhausted while the program
would read again.  The types of the matrix and of the condition values are
parameters (the program instantiates them with Eigen matrices and doubles). -/
def regenLoop {M C : Type} [LinearOrder C] (θ : C) (draws : ℕ → M × C) :
    List Char → Char → ℕ → M × C → Option (M × C)
  | resps, c, k, cur =>
    if c = 'y' ∨ c = 'Y' then
      if (draws k).2 ≤ θ then some (draws k)
      else
        match resps with
        | [] => none
        | r :: rs => regenLoop θ draws rs r (k + 1) (draws k)
    else some cur

/-- Conditioning check of main (src/main.cpp lines 109-135): when the first
matrix's condition number exceeds the threshold the program prompts, reads
one answer and runs the regeneration loop; otherwise the matrix is kept
as-is.  `A0` is the first generated matrix paired with its condition
number. -/
def regenPhase {M C : Type} [LinearOrder C] (θ : C) (draws : ℕ → M × C)
    (resps : List Char) (A0 : M × C) : Option (M × C) :=
  if θ < A0.2 then
    match resps with
    | [] => none
    | c :: rs => regenLoop θ draws rs c 0 A0
  else some A0

/-- Helper: one-step unfolding of the regeneration loop. -/
lemma regenLoop_eq {M C : Type} [LinearOrder C] (θ : C) (draws : ℕ → M × C)
    (resps : List Char) (c : Char) (k : ℕ) (cur : M × C) :
    regenLoop θ draws resps c k cur =
      if c = 'y' ∨ c = 'Y' then
        if (draws k).2 ≤ θ then some (draws k)
        else
          match resps with
          | [] => none
          | r :: rs => regenLoop θ draws rs r (k + 1) (draws k)
      else some cur := by
  cases resps <;> rfl

/-- Concrete draw stream for the C7 witness: the first draw has condition
number 2000000 (above the 1e6 threshold), every later draw has 5. -/
def regenDraws : ℕ → ℕ × ℚ := fun k => (k, if k = 0 then 2000000 else 5)

/-- C7: the regeneration dialogue is entered only when the condition number
exceeds the threshold; any first answer other than 'y'/'Y' keeps the current
(last generated) matrix; while every consumed answer is 'y'/'Y' and every
fresh draw is still above the threshold the loop keeps drawing, and it stops
at the first draw at or below the threshold; if instead the operator gives a
non-'y'/'Y' answer after j+1 poorly conditioned draws, the loop stops with
the last poorly conditioned draw. -/
theorem C7_regeneration_loop {M C : Type} [LinearOrder C] (θ : C) (draws : ℕ → M × C) :
    (∀ (resps : List Char) (A0 : M × C), ¬ θ < A0.2 →
      regenPhase θ draws resps A0 = some A0) ∧
    (∀ (resps : List Char) (c : Char) (k : ℕ) (cur : M × C),
      ¬ (c = 'y' ∨ c = 'Y') → regenLoop θ draws resps c k cur = some cur) ∧
    (∀ (j : ℕ) (resps : List Char) (c : Char) (k : ℕ) (cur : M × C),
      (c = 'y' ∨ c = 'Y') → j ≤ resps.length →
      (∀ i, i < j → resps.getD i 'n' = 'y' ∨ resps.getD i 'n' = 'Y') →
      (∀ i, i < j → θ < (draws (k + i)).2) →
      (draws (k + j)).2 ≤ θ →
      regenLoop θ draws resps c k cur = some (draws (k + j))) ∧
    (∀ (j : ℕ) (resps : List Char) (c : Char) (k : ℕ) (cur : M × C),
      (c = 'y' ∨ c = 'Y') → j < resps.length →
      (∀ i, i < j → resps.getD i 'n' = 'y' ∨ resps.getD i 'n' = 'Y') →
      ¬ (resps.getD j 'n' = 'y' ∨ resps.getD j 'n' = 'Y') →
      (∀ i, i ≤ j → θ < (draws (k + i)).2) →
      regenLoop θ draws resps c k cur = some (draws (k + j))) := by
  refine ⟨?_, ?_, ?_, ?_⟩
  · intro resps A0 h
    unfold regenPhase
    rw [if_neg h]
  · intro resps c k cur h
    rw [regenLoop_eq, if_neg h]
  · intro j
    induction j with
    | zero =>
      intro resps c k cur hc _ _ _ hgood
      rw [Nat.add_zero] at hgood
      rw [regenLoop_eq, if_pos hc, if_pos hgood, Nat.add_zero]
    | succ j ih =>
      intro resps c k cur hc hlen hresp hbad hgood
      have hk : θ < (draws k).2 := by
        have h0 := hbad 0 (Nat.succ_pos j)
        rwa [Nat.add_zero] at h0
      rw [regenLoop_eq, if_pos hc, if_neg (not_le.mpr hk)]
      match resps, hlen with
      | r :: rs, hlen =>
        have hr : r = 'y' ∨ r = 'Y' := by
          have h0 := hresp 0 (Nat.succ_pos j)
          simpa using h0
        show regenLoop θ draws rs r (k + 1) (draws k) = some (draws (k + (j + 1)))
        have hkj : k + (j + 1) = k + 1 + j := by omega
        rw [hkj]
        refine ih rs r (k + 1) (draws k) hr (by simpa using Nat.succ_le_succ_iff.mp hlen)
          ?_ ?_ ?_
        · intro i hi
          have := hresp (i + 1) (Nat.succ_lt_succ hi)
          simpa using this
        · intro i hi
          have := hbad (i + 1) (Nat.succ_lt_succ hi)
          have hix : k + (i + 1) = k + 1 + i := by omega
          rwa [hix] at this
        · have hjx : k + (j + 1) = k + 1 + j := by omega
          rwa [hjx] at hgood
  · intro j
    induction j with
    | zero =>
      intro resps c k cur hc hlen _ hstop hbad
      have hk : θ < (draws k).2 := by
        have h0 := hbad 0 (Nat.le_refl 0)
        rwa [Nat.add_zero] at h0
      rw [regenLoop_eq, if_pos hc, if_neg (not_le.mpr hk)]
      match resps, hlen with
      | r :: rs, _ =>
        have hr : ¬ (r = 'y' ∨ r = 'Y') := by simpa using hstop
        show regenLoop θ draws rs r (k + 1) (draws k) = some (draws (k + 0))
        rw [regenLoop_eq, if_neg hr, Nat.add_zero]
    | succ j ih =>
      intro resps c k cur hc hlen hresp hstop hbad
      have hk : θ < (draws k).2 := by
        have h0 := hbad 0 (Nat.zero_le _)
        rwa [Nat.add_zero] at h0
      rw [regenLoop_eq, if_pos hc, if_neg (not_le.mpr hk)]
      match resps, hlen with
      | r :: rs, hlen =>
        have hr : r = 'y' ∨ r = 'Y' := by
          have h0 := hresp 0 (Nat.succ_pos j)
          simpa using h0
        show regenLoop θ draws rs r (k + 1) (draws k) = some (draws (k + (j + 1)))
        have hkj : k + (j + 1) = k + 1 + j := by omega
        rw [hkj]
        refine ih rs r (k + 1) (draws k) hr (by simpa using Nat.succ_lt_succ_iff.mp hlen)
          ?_ ?_ ?_
        · intro i hi
          have := hresp (i + 1) (Nat.succ_lt_succ hi)
          simpa using this
        · have := hstop
          simpa using this
        · intro i hi
          have := hbad (i + 1) (Nat.succ_le_succ hi)
          have hix : k + (i + 1) = k + 1 + i := by omega
          rwa [hix] at this

/-- Witness for C7, instantiating the condition values with rationals, the
threshold with 1000000 and the matrices with bare indices: a well-conditioned
first matrix skips the dialogue; an immediate 'n' keeps the current matrix; a
'y' answer with a poorly conditioned first draw and a good second draw stops
at the second draw; a 'y' then 'n' script with only poor draws stops with the
last poor draw. -/
theorem C7_witness :
    (¬ (1000000 : ℚ) < ((0 : ℕ), (5 : ℚ)).2 ∧
      regenPhase (1000000 : ℚ) regenDraws ['y'] ((0 : ℕ), (5 : ℚ)) =
        some ((0 : ℕ), (5 : ℚ))) ∧
    (¬ ('n' = 'y' ∨ 'n' = 'Y') ∧
      regenLoop (1000000 : ℚ) regenDraws [] 'n' 0 ((0 : ℕ), (2000000 : ℚ)) =
        some ((0 : ℕ), (2000000 : ℚ))) ∧
    ((1000000 : ℚ) < (regenDraws (0 + 0)).2 ∧ (regenDraws (0 + 1)).2 ≤ 1000000 ∧
      regenLoop (1000000 : ℚ) regenDraws ['y'] 'y' 0 ((0 : ℕ), (2000000 : ℚ)) =
        some (regenDraws (0 + 1))) ∧
    (¬ (['n'].getD 0 'n' = 'y' ∨ ['n'].getD 0 'n' = 'Y') ∧
      regenLoop (1000000 : ℚ) regenDraws ['n'] 'y' 0 ((0 : ℕ), (2000000 : ℚ)) =
        some (regenDraws (0 + 0))) :=
  ⟨⟨by decide,
    (C7_regeneration_loop (1000000 : ℚ) regenDraws).1 ['y'] ((0 : ℕ), (5 : ℚ)) (by decide)⟩,
   ⟨by decide,
    (C7_regeneration_loop (1000000 : ℚ) regenDraws).2.1 [] 'n' 0 ((0 : ℕ), (2000000 : ℚ))
      (by decide)⟩,
   ⟨by decide, by decide,
    (C7_regeneration_loop (1000000 : ℚ) regenDraws).2.2.1 1 ['y'] 'y' 0
      ((0 : ℕ), (2000000 : ℚ)) (Or.inl rfl) (by decide)
      (fun i hi => by interval_cases i; exact Or.inl rfl)
      (fun i hi => by interval_cases i; decide)
      (by decide)⟩,
   ⟨by decide,
    (C7_regeneration_loop (1000000 : ℚ) regenDraws).2.2.2 0 ['n'] 'y' 0
      ((0 : ℕ), (2000000 : ℚ)) (Or.inl rfl) (by decide)
      (fun i hi => absurd hi (by omega))
      (by decide)
      (fun i hi => by interval_cases i; decide)⟩⟩

/-- eigen_decomposition wrapper (src/eigen_interface.cpp lines 21-39).  The
Fortran routine is an oracle mapping the contents of the A buffer it is
handed to the final contents of that buffer together with the eigenvalue
buffer W, the eigenvector buffer V and the status code info.  The wrapper
copies A, hands the copy to the routine (whose overwritten working buffer is
discarded with the copy), and throws a runtime_error naming the info code
when info is nonzero, modelled as Except.error on the what()-string.  The
first component of the result is the value of the caller's matrix A after
the call. -/
def eigen_decompositionW {n : ℕ}
    (fortran : Mat n → Mat n × Vec n × Mat n × Int) (A : Mat n) :
    Mat n × Except String (Vec n × Mat n) :=
  let A_copy := A
  (A,
    if (fortran A_copy).2.2.2 ≠ 0 then
      Except.error ("LAPACK eigen_decomposition failed with info code: " ++
        toString (fortran A_copy).2.2.2)
    else
      Except.ok ((fortran A_copy).2.1, (fortran A_copy).2.2.1))

/-- Library-backend branch of main (src/main.cpp lines 169-214): the two
sides of the `use_lapack_in_eigen` conditional each run
`Eigen::EigenSolver<Eigen::MatrixXd> solver(A)` and take the real parts of
`solver.eigenvalues()` and `solver.eigenvectors()`; only the label printed
with the duration differs.  The solver is an oracle returning the complex
eigenvalues and eigenvectors. -/
def libraryBranch {n : ℕ} (flag : Bool)
    (solver : Mat n → (Fin n → ℂ) × Matrix (Fin n) (Fin n) ℂ) (A : Mat n) :
    (Fin n → ℝ) × Mat n × String :=
  if flag then
    ((fun i => ((solver A).1 i).re), (fun i j => ((solver A).2 i j).re),
      "Eigen Library (with LAPACK)")
  else
    ((fun i => ((solver A).1 i).re), (fun i j => ((solver A).2 i j).re),
      "Eigen Library (without LAPACK)")

/-- Eigen's cwiseAbs() on a vector: entrywise absolute value. -/
def cwiseAbsV {n : ℕ} (v : Fin n → ℝ) : Fin n → ℝ := fun i => |v i|

/-- Eigen's cwiseAbs() on a matrix: entrywise absolute value. -/
def cwiseAbsM {n : ℕ} (A : Mat n) : Mat n := fun i j => |A i j|

/-- Eigen's maxCoeff() on a nonempty vector: the largest entry. -/
noncomputable def maxCoeffV {n : ℕ} (v : Fin (n + 1) → ℝ) : ℝ :=
  Finset.univ.sup' Finset.univ_nonempty v

/-- Eigen's maxCoeff() on a nonempty matrix: the largest entry. -/
noncomputable def maxCoeffM {n : ℕ} (A : Mat (n + 1)) : ℝ :=
  Finset.univ.sup' Finset.univ_nonempty (fun p : Fin (n + 1) × Fin (n + 1) => A p.1 p.2)

/-- Report lines main writes (to std::cout and to results.txt alike) from the
decomposition phase on; the summary block's repetition of the durations,
maxima and errors is folded into the values already recorded, with the final
faster-by line kept explicitly. -/
inductive RLine where
  | duration (method : String) (seconds : ℝ) : RLine
  | reconError (method : String) (value : ℝ) : RLine
  | maxEigenvalueDiff (value : ℝ) : RLine
  | maxEigenvectorDiff (value : ℝ) : RLine
  | summaryFaster (method : String) (delta : ℝ) : RLine

/-- Observable outcome of the decomposition phase of main: the exit code, the
lines printed on std::cerr, and the report lines produced from the
decomposition onward. -/
structure RunOutcome where
  exitCode : ℕ
  stderrLines : List String
  reportLines : List RLine

/-- Decomposition phase of main (src/main.cpp lines 137-271): run the native
backend through the wrapper inside try/catch — on a caught error print it on
std::cerr and return 1 with no report line — then validate, run the library
branch, validate it, take the entrywise maxima of the differences, and emit
the report.  `df` and `de` are the measured wall-clock durations (clock
oracle). -/
noncomputable def decompPhase {n : ℕ} (flag : Bool)
    (fortran : Mat (n + 1) → Mat (n + 1) × Vec (n + 1) × Mat (n + 1) × Int)
    (solver : Mat (n + 1) → (Fin (n + 1) → ℂ) × Matrix (Fin (n + 1)) (Fin (n + 1)) ℂ)
    (df de : ℝ) (A : Mat (n + 1)) : RunOutcome :=
  match (eigen_decompositionW fortran A).2 with
  | Except.error msg =>
      ⟨1, ["Error in Fortran LAPACK eigenvalue decomposition: " ++ msg], []⟩
  | Except.ok (Wf, Vf) =>
      let ef := check_decomposition A Wf Vf
      let lb := libraryBranch flag solver A
      let ee := check_decomposition A lb.1 lb.2.1
      let mdv := maxCoeffV (cwiseAbsV (Wf - lb.1))
      let mdw := maxCoeffM (cwiseAbsM (Vf - lb.2.1))
      ⟨0, [],
        [RLine.duration "Fortran LAPACK" df,
         RLine.reconError "Fortran LAPACK" ef,
         RLine.duration lb.2.2 de,
         RLine.reconError "Eigen Library" ee,
         RLine.maxEigenvalueDiff mdv,
         RLine.maxEigenvectorDiff mdw,
         RLine.summaryFaster (if df < de then "Fortran LAPACK" else "Eigen Library")
           |de - df|]⟩

/-- C8: the native-backend wrapper passes a copy of A to the Fortran routine,
so after the call the caller's matrix is unchanged — even when the routine
leaves contents different from A in the working buffer it was handed. -/
theorem C8_source_matrix_unchanged {n : ℕ}
    (fortran : Mat n → Mat n × Vec n × Mat n × Int) (A : Mat n) :
    (eigen_decompositionW fortran A).1 = A ∧
    ((fortran A).1 ≠ A → (fortran A).1 ≠ (eigen_decompositionW fortran A).1) :=
  ⟨rfl, fun h => h⟩

/-- C4: the two `use_lapack_in_eigen` branches of the library backend compute
the identical eigenvalue vector and eigenvector matrix (the real parts of the
same EigenSolver run); the flag changes only the printed label text. -/
theorem C4_library_mode_equivalence {n : ℕ}
    (solver : Mat n → (Fin n → ℂ) × Matrix (Fin n) (Fin n) ℂ) (A : Mat n)
    (b₁ b₂ : Bool) :
    (libraryBranch b₁ solver A).1 = (libraryBranch b₂ solver A).1 ∧
    (libraryBranch b₁ solver A).2.1 = (libraryBranch b₂ solver A).2.1 ∧
    (libraryBranch b₁ solver A).1 = (fun i => ((solver A).1 i).re) ∧
    (libraryBranch b₁ solver A).2.1 = (fun i j => ((solver A).2 i j).re) ∧
    (libraryBranch true solver A).2.2 = "Eigen Library (with LAPACK)" ∧
    (libraryBranch false solver A).2.2 = "Eigen Library (without LAPACK)" := by
  cases b₁ <;> cases b₂ <;>
    exact ⟨rfl, rfl, rfl, rfl, rfl, rfl⟩

/-- C6: the reported max_eigenvalue_diff is exactly the maximum over i of
the absolute difference of the i-th eigenvalues, and max_eigenvector_diff is
exactly the maximum over all entries (i, j) of the absolute difference of
the eigenvector matrices — index for index, with no reordering. -/
theorem C6_max_diffs {n : ℕ} (Wf We : Fin (n + 1) → ℝ) (Vf Ve : Mat (n + 1)) :
    (∀ i, |Wf i - We i| ≤ maxCoeffV (cwiseAbsV (Wf - We))) ∧
    (∃ i, maxCoeffV (cwiseAbsV (Wf - We)) = |Wf i - We i|) ∧
    (∀ i j, |Vf i j - Ve i j| ≤ maxCoeffM (cwiseAbsM (Vf - Ve))) ∧
    (∃ i j, maxCoeffM (cwiseAbsM (Vf - Ve)) = |Vf i j - Ve i j|) := by
  refine ⟨?_, ?_, ?_, ?_⟩
  · intro i
    exact Finset.le_sup' (cwiseAbsV (Wf - We)) (Finset.mem_univ i)
  · obtain ⟨i, _, h⟩ := Finset.exists_mem_eq_sup' Finset.univ_nonempty (cwiseAbsV (Wf - We))
    exact ⟨i, h⟩
  · intro i j
    exact Finset.le_sup'
      (fun p : Fin (n + 1) × Fin (n + 1) => cwiseAbsM (Vf - Ve) p.1 p.2)
      (Finset.mem_univ (i, j))
  · obtain ⟨p, _, h⟩ := Finset.exists_mem_eq_sup' Finset.univ_nonempty
      (fun p : Fin (n + 1) × Fin (n + 1) => cwiseAbsM (Vf - Ve) p.1 p.2)
    exact ⟨p.1, p.2, h⟩

/-- C2: when the Fortran routine reports a nonzero status code, the wrapper
signals a runtime error whose message names the code; main catches it,
prints the error on std::cerr, exits with code 1, and produces none of the
comparison report lines (no reconstruction errors, no maxima, no summary);
when the status code is 0 the wrapper returns the eigenvalues and the
eigenvectors normally. -/
theorem C2_nonzero_info_aborts {n : ℕ} (flag : Bool)
    (fortran : Mat (n + 1) → Mat (n + 1) × Vec (n + 1) × Mat (n + 1) × Int)
    (solver : Mat (n + 1) → (Fin (n + 1) → ℂ) × Matrix (Fin (n + 1)) (Fin (n + 1)) ℂ)
    (df de : ℝ) (A : Mat (n + 1)) :
    ((fortran A).2.2.2 ≠ 0 →
      decompPhase flag fortran solver df de A =
        ⟨1, ["Error in Fortran LAPACK eigenvalue decomposition: " ++
             ("LAPACK eigen_decomposition failed with info code: " ++
              toString (fortran A).2.2.2)], []⟩) ∧
    ((fortran A).2.2.2 = 0 →
      (eigen_decompositionW fortran A).2 =
        Except.ok ((fortran A).2.1, (fortran A).2.2.1)) := by
  constructor
  · intro h
    have hsnd : (eigen_decompositionW fortran A).2 =
        Except.error ("LAPACK eigen_decomposition failed with info code: " ++
          toString (fortran A).2.2.2) := by
      show (if (fortran A).2.2.2 ≠ 0 then
            Except.error ("LAPACK eigen_decomposition failed with info code: " ++
              toString (fortran A).2.2.2)
          else
            Except.ok ((fortran A).2.1, (fortran A).2.2.1)) = _
      rw [if_pos h]
    unfold decompPhase
    rw [hsnd]
  · intro h
    show (if (fortran A).2.2.2 ≠ 0 then
          Except.error ("LAPACK eigen_decomposition failed with info code: " ++
            toString (fortran A).2.2.2)
        else
          Except.ok ((fortran A).2.1, (fortran A).2.2.1)) = _
    rw [if_neg (not_not_intro h)]

/-- C10: the validator is total — after a successful native decomposition the
run always reaches the full report and exit code 0, with the relative errors
stored by check_decomposition for both backends, with no hypothesis on the
eigenvector matrices: a singular (non-invertible) V goes through the
unguarded inversion and still yields a stored value, never a
ReconstructionError and never an abort. -/
theorem C10_validator_total {n : ℕ} (flag : Bool)
    (fortran : Mat (n + 1) → Mat (n + 1) × Vec (n + 1) × Mat (n + 1) × Int)
    (solver : Mat (n + 1) → (Fin (n + 1) → ℂ) × Matrix (Fin (n + 1)) (Fin (n + 1)) ℂ)
    (df de : ℝ) (A : Mat (n + 1))
    (hA : frobNorm A ≠ 0) (hinfo : (fortran A).2.2.2 = 0) :
    decompPhase flag fortran solver df de A =
      ⟨0, [],
        [RLine.duration "Fortran LAPACK" df,
         RLine.reconError "Fortran LAPACK"
           (check_decomposition A (fortran A).2.1 (fortran A).2.2.1),
         RLine.duration (libraryBranch flag solver A).2.2 de,
         RLine.reconError "Eigen Library"
           (check_decomposition A (libraryBranch flag solver A).1
             (libraryBranch flag solver A).2.1),
         RLine.maxEigenvalueDiff
           (maxCoeffV (cwiseAbsV ((fortran A).2.1 - (libraryBranch flag solver A).1))),
         RLine.maxEigenvectorDiff
           (maxCoeffM (cwiseAbsM ((fortran A).2.2.1 - (libraryBranch flag solver A).2.1))),
         RLine.summaryFaster (if df < de then "Fortran LAPACK" else "Eigen Library")
           |de - df|]⟩ := by
  have hsnd : (eigen_decompositionW fortran A).2 =
      Except.ok ((fortran A).2.1, (fortran A).2.2.1) := by
    show (if (fortran A).2.2.2 ≠ 0 then
          Except.error ("LAPACK eigen_decomposition failed with info code: " ++
            toString (fortran A).2.2.2)
        else
          Except.ok ((fortran A).2.1, (fortran A).2.2.1)) = _
    rw [if_neg (not_not_intro hinfo)]
  unfold decompPhase
  rw [hsnd]

/-- Concrete failing Fortran oracle for the C2 witness: status code 5. -/
def fortranBad : Mat 1 → Mat 1 × Vec 1 × Mat 1 × Int :=
  fun _ => (0, fun _ => 0, 0, 5)

/-- Concrete succeeding Fortran oracle: status code 0, eigenvalue buffer all
ones, eigenvector buffer the zero (singular) matrix. -/
def fortranGood : Mat 1 → Mat 1 × Vec 1 × Mat 1 × Int :=
  fun _ => (0, fun _ => 1, 0, 0)

/-- Concrete library solver oracle returning zero (singular) output. -/
def solverZero : Mat 1 → (Fin 1 → ℂ) × Matrix (Fin 1) (Fin 1) ℂ :=
  fun _ => (fun _ => 0, fun _ _ => 0)

/-- Witness for C2: a status code of 5 aborts with the message naming 5 and
no report lines; a status code of 0 returns the buffers normally. -/
theorem C2_witness :
    (fortranBad (0 : Mat 1)).2.2.2 ≠ 0 ∧
    decompPhase true fortranBad solverZero 0 0 (0 : Mat 1) =
      ⟨1, ["Error in Fortran LAPACK eigenvalue decomposition: " ++
           ("LAPACK eigen_decomposition failed with info code: " ++
            toString (fortranBad (0 : Mat 1)).2.2.2)], []⟩ ∧
    (fortranGood (0 : Mat 1)).2.2.2 = 0 ∧
    (eigen_decompositionW fortranGood (0 : Mat 1)).2 =
      Except.ok ((fortranGood (0 : Mat 1)).2.1, (fortranGood (0 : Mat 1)).2.2.1) :=
  ⟨by decide,
   (C2_nonzero_info_aborts true fortranBad solverZero 0 0 (0 : Mat 1)).1 (by decide),
   rfl,
   (C2_nonzero_info_aborts true fortranGood solverZero 0 0 (0 : Mat 1)).2 rfl⟩

/-- Witness for C10 at A = 1 with a successful native call whose eigenvector
buffer is the zero matrix (singular V) and a library solver also returning
the zero matrix: the run still completes with exit code 0 and a full report. -/
theorem C10_witness :
    frobNorm (1 : Mat 1) ≠ 0 ∧ (fortranGood (1 : Mat 1)).2.2.2 = 0 ∧
    decompPhase false fortranGood solverZero 0 0 (1 : Mat 1) =
      ⟨0, [],
        [RLine.duration "Fortran LAPACK" 0,
         RLine.reconError "Fortran LAPACK"
           (check_decomposition (1 : Mat 1) (fortranGood (1 : Mat 1)).2.1
             (fortranGood (1 : Mat 1)).2.2.1),
         RLine.duration (libraryBranch false solverZero (1 : Mat 1)).2.2 0,
         RLine.reconError "Eigen Library"
           (check_decomposition (1 : Mat 1) (libraryBranch false solverZero (1 : Mat 1)).1
             (libraryBranch false solverZero (1 : Mat 1)).2.1),
         RLine.maxEigenvalueDiff
           (maxCoeffV (cwiseAbsV ((fortranGood (1 : Mat 1)).2.1 -
             (libraryBranch false solverZero (1 : Mat 1)).1))),
         RLine.maxEigenvectorDiff
           (maxCoeffM (cwiseAbsM ((fortranGood (1 : Mat 1)).2.2.1 -
             (libraryBranch false solverZero (1 : Mat 1)).2.1))),
         RLine.summaryFaster (if (0 : ℝ) < (0 : ℝ) then "Fortran LAPACK" else "Eigen Library")
           |(0 : ℝ) - (0 : ℝ)|]⟩ :=
  ⟨frobNorm_one_fin_one, rfl,
   C10_validator_total false fortranGood solverZero 0 0 (1 : Mat 1)
     frobNorm_one_fin_one rfl⟩

/-- Helper: the 1x1 identity matrix is not the zero matrix. -/
lemma matOne_ne_zero : (1 : Mat 1) ≠ 0 := by
  intro h
  have h00 := congrFun (congrFun h 0) 0
  simp [Matrix.one_apply] at h00

/-- Concrete Fortran oracle for the C8 witness: it leaves the identity matrix
in the working buffer it is handed. -/
def fortranOverwrite : Mat 1 → Mat 1 × Vec 1 × Mat 1 × Int :=
  fun _ => (1, fun _ => 0, 0, 0)

/-- Witness for C8: a routine that overwrites its working buffer with the
identity still leaves the caller's zero matrix untouched. -/
theorem C8_witness :
    (fortranOverwrite (0 : Mat 1)).1 ≠ (0 : Mat 1) ∧
    (eigen_decompositionW fortranOverwrite (0 : Mat 1)).1 = (0 : Mat 1) ∧
    (fortranOverwrite (0 : Mat 1)).1 ≠ (eigen_decompositionW fortranOverwrite (0 : Mat 1)).1 :=
  ⟨matOne_ne_zero,
   (C8_source_matrix_unchanged fortranOverwrite (0 : Mat 1)).1,
   (C8_source_matrix_unchanged fortranOverwrite (0 : Mat 1)).2 matOne_ne_zero⟩
